import Mathlib

/-!
Verification of the document-ingestion and scan pipeline of a document
service.  The Lean definitions below are a shallow embedding of the
Python sources:

  * `app/services/virus_scanner.py`   — scanner protocol client and scan flow
  * `app/services/redis_client.py`    — job/session coordinator (Redis model)
  * `app/services/document_service.py`— upload / get / update / delete
  * `app/api/rest_routes.py`          — the scan route
  * `app/models/document.py`, `app/models/database.py` — data model

Bytes are modelled as `Nat` (values 0..255), byte strings as `List Nat`,
Python `str` as Lean `String` together with hand-rolled character-list
implementations of the Python string operations used by the code
(`strip`, `endswith`, `in`, `split`, `replace`), because those must
evaluate inside the kernel.  `datetime.utcnow()` values are modelled as
abstract `Nat` clock inputs, and `uuid.uuid4()` results as explicitly
supplied fresh identifiers.  Redis keys that have expired are modelled
as absent entries, matching what a Redis `GET` observes.  A SQLAlchemy
session is modelled as a pending list of row inserts/mutations that are
applied to the database state atomically on `commit` and discarded on
rollback, which is exactly the `get_db` contract in `app/database.py`.
-/

/-! ## Python string primitives (character-list semantics) -/

/-- Whitespace test used by Python `str.strip()` for the ASCII range. -/
def isSpaceChar (c : Char) : Bool :=
  c == ' ' || c == '\t' || c == '\n' || c == '\r' || c == '\x0b' || c == '\x0c'

/-- Model of Python `str.strip()`: drop leading and trailing whitespace. -/
def pyStrip (s : String) : String :=
  ⟨((s.data.dropWhile isSpaceChar).reverse.dropWhile isSpaceChar).reverse⟩

/-- Test whether the pattern (first argument) is an initial segment of the
second argument. -/
def leadMatch : List Char → List Char → Bool
  | [], _ => true
  | _ :: _, [] => false
  | p :: ps, c :: cs => p == c && leadMatch ps cs

/-- Model of Python `str.endswith(suf)`. -/
def pyEndsWith (s suf : String) : Bool :=
  leadMatch suf.data.reverse s.data.reverse

/-- Model of Python `needle in hay` substring membership. -/
def pyContains (hay needle : String) : Bool :=
  (List.range (hay.data.length + 1)).any (fun i => leadMatch needle.data (hay.data.drop i))

/-- Model of Python `str.split(sep)` for a one-character separator. -/
def splitChar (sep : Char) : List Char → List (List Char)
  | [] => [[]]
  | c :: cs =>
    let r := splitChar sep cs
    if c == sep then [] :: r
    else
      match r with
      | h :: t => (c :: h) :: t
      | [] => [[c]]

/-- Fuel-indexed worker for `pyReplace`; the fuel is the input length, which
bounds the number of recursion steps. -/
def replCharsF (old new : List Char) : Nat → List Char → List Char
  | _, [] => []
  | 0, l => l
  | fuel + 1, c :: cs =>
    if !old.isEmpty && leadMatch old (c :: cs) then
      new ++ replCharsF old new fuel (cs.drop (old.length - 1))
    else
      c :: replCharsF old new fuel cs

/-- Model of Python `str.replace(old, new)` (all non-overlapping
occurrences, left to right, for a non-empty `old`). -/
def pyReplace (s old new : String) : String :=
  ⟨replCharsF old.data new.data s.data.length s.data⟩

/-! ## SHA-256 (model of `hashlib.sha256(...).hexdigest()`)

The upload path computes `hashlib.sha256(file_data).hexdigest()`; the
functions below are a complete executable SHA-256 over byte lists, with
32-bit words carried as `Nat` reduced modulo `2^32`. -/

/-- Word modulus `2^32`. -/
def w32 : Nat := 4294967296

/-- SHA-256 round constants (decimal, FIPS 180-4 section 4.2.2). -/
def k256 : List Nat :=
  [1116352408, 1899447441, 3049323471, 3921009573, 961987163,
   1508970993, 2453635748, 2870763221, 3624381080, 310598401,
   607225278, 1426881987, 1925078388, 2162078206, 2614888103,
   3248222580, 3835390401, 4022224774, 264347078, 604807628,
   770255983, 1249150122, 1555081692, 1996064986, 2554220882,
   2821834349, 2952996808, 3210313671, 3336571891, 3584528711,
   113926993, 338241895, 666307205, 773529912, 1294757372,
   1396182291, 1695183700, 1986661051, 2177026350, 2456956037,
   2730485921, 2820302411, 3259730800, 3345764771, 3516065817,
   3600352804, 4094571909, 275423344, 430227734, 506948616,
   659060556, 883997877, 958139571, 1322822218, 1537002063,
   1747873779, 1955562222, 2024104815, 2227730452, 2361852424,
   2428436474, 2756734187, 3204031479, 3329325298]

/-- SHA-256 initial hash state (decimal, FIPS 180-4 section 5.3.3). -/
def h0 : List Nat :=
  [1779033703, 3144134277, 1013904242, 2773480762,
   1359893119, 2600822924, 528734635, 1541459225]

/-- Rotate a 32-bit word right by `n`. -/
def rotr32 (n x : Nat) : Nat := Nat.lor (x >>> n) ((x <<< (32 - n)) % w32)

/-- SHA-256 big sigma 0. -/
def bsig0 (x : Nat) : Nat := Nat.xor (Nat.xor (rotr32 2 x) (rotr32 13 x)) (rotr32 22 x)

/-- SHA-256 big sigma 1. -/
def bsig1 (x : Nat) : Nat := Nat.xor (Nat.xor (rotr32 6 x) (rotr32 11 x)) (rotr32 25 x)

/-- SHA-256 small sigma 0. -/
def ssig0 (x : Nat) : Nat := Nat.xor (Nat.xor (rotr32 7 x) (rotr32 18 x)) (x >>> 3)

/-- SHA-256 small sigma 1. -/
def ssig1 (x : Nat) : Nat := Nat.xor (Nat.xor (rotr32 17 x) (rotr32 19 x)) (x >>> 10)

/-- SHA-256 choice function. -/
def chf (x y z : Nat) : Nat := Nat.xor (Nat.land x y) (Nat.land (Nat.xor x 0xffffffff) z)

/-- SHA-256 majority function. -/
def majf (x y z : Nat) : Nat := Nat.xor (Nat.xor (Nat.land x y) (Nat.land x z)) (Nat.land y z)

/-- Big-endian byte encoding of `n` into `k` bytes; this is also the model of
Python `int.to_bytes(k, byteorder='big')` used by the scan protocol. -/
def beBytes : Nat → Nat → List Nat
  | 0, _ => []
  | k + 1, n => (n >>> (8 * k)) % 256 :: beBytes k n

/-- SHA-256 length padding. -/
def padMsg (m : List Nat) : List Nat :=
  let pad := (64 - ((m.length + 9) % 64)) % 64
  m ++ [0x80] ++ List.replicate pad 0 ++ beBytes 8 ((8 * m.length) % (2 ^ 64))

/-- Pack bytes into big-endian 32-bit words. -/
def toWords : List Nat → List Nat
  | b0 :: b1 :: b2 :: b3 :: rest => (((b0 * 256 + b1) * 256 + b2) * 256 + b3) :: toWords rest
  | _ => []

/-- Split a word list into 16-word blocks. -/
def blocks16 : List Nat → List (List Nat)
  | a0 :: a1 :: a2 :: a3 :: a4 :: a5 :: a6 :: a7 ::
    a8 :: a9 :: a10 :: a11 :: a12 :: a13 :: a14 :: a15 :: rest =>
    [a0, a1, a2, a3, a4, a5, a6, a7, a8, a9, a10, a11, a12, a13, a14, a15] :: blocks16 rest
  | _ => []

/-- Extend a 16-word block by `k` schedule words. -/
def extendW : List Nat → Nat → List Nat
  | w, 0 => w
  | w, k + 1 =>
    let n := w.length
    let s0 := ssig0 (w.getD (n - 15) 0)
    let s1 := ssig1 (w.getD (n - 2) 0)
    extendW (w ++ [(w.getD (n - 16) 0 + s0 + w.getD (n - 7) 0 + s1) % w32]) k

/-- One SHA-256 compression round on the 8-word working state. -/
def roundStep (st : List Nat) (ki wi : Nat) : List Nat :=
  match st with
  | [a, b, c, d, e, f, g, h] =>
    let t1 := (h + bsig1 e + chf e f g + ki + wi) % w32
    let t2 := (bsig0 a + majf a b c) % w32
    [(t1 + t2) % w32, a, b, c, (d + t1) % w32, e, f, g]
  | other => other

/-- SHA-256 compression of one block into the hash state. -/
def compress (h : List Nat) (block : List Nat) : List Nat :=
  let w := extendW block 48
  let st := (List.zip k256 w).foldl (fun s p => roundStep s p.1 p.2) h
  (List.zip h st).map (fun p => (p.1 + p.2) % w32)

/-- SHA-256 digest as 32 bytes. -/
def sha256bytes (m : List Nat) : List Nat :=
  (((blocks16 (toWords (padMsg m))).foldl compress h0).map (beBytes 4)).flatten

/-- Lowercase hex digit for a value below 16. -/
def hexDigit (n : Nat) : Char := if n < 10 then Char.ofNat (48 + n) else Char.ofNat (87 + n)

/-- Model of `hashlib.sha256(m).hexdigest()`. -/
def sha256hex (m : List Nat) : String :=
  ⟨(sha256bytes m).flatMap (fun b => [hexDigit (b / 16), hexDigit (b % 16)])⟩

/-- ASCII bytes of a string, the model of Python `str.encode()` for the
ASCII payloads used in the scenarios. -/
def strToBytes (s : String) : List Nat := s.data.map (fun c => c.toNat)

/-- Known-answer test: the model matches the standard SHA-256 digest of the
empty message. -/
theorem sha256hex_empty :
    sha256hex [] = "e3b0c44298fc1c149afbf4c8996fb92427ae41e4649b934ca495991b7852b855" := by
  decide

/-- Known-answer test: the model matches the standard SHA-256 digest of the
19-byte payload of example scenario 1. -/
theorem sha256hex_scenario_payload :
    sha256hex (strToBytes "hello virus scanner") =
      "8c2a87666457b9f08eea2bfeede22f507b8133c958268a420a11160ab7d1d9e3" := by
  decide

/-! ## Scan protocol framing (`ClamAVScanner._scan_with_clamav`, lines 142-165)

The client writes `b"zINSTREAM\0"`, then for each 8192-byte slice of the
payload a 4-byte big-endian length prefixed frame, then a zero-length
terminator frame.  `chunks8192` is the while loop's slicing
(`data[offset:offset+chunk_size]` with `offset` advancing by 8192). -/

/-- Successive 8192-byte slices of the payload, as produced by the send
loop. -/
def chunks8192 : List Nat → List (List Nat)
  | [] => []
  | b :: rest => ((b :: rest).take 8192) :: chunks8192 ((b :: rest).drop 8192)
  termination_by l => l.length
  decreasing_by simp [List.length_drop]; omega

/-- Value of four big-endian bytes. -/
def beVal4 (b0 b1 b2 b3 : Nat) : Nat := ((b0 * 256 + b1) * 256 + b2) * 256 + b3

/-- Wire encoding of a chunk list: each chunk is preceded by its 4-byte
big-endian length, and the stream ends with the zero-length terminator. -/
def frameEnc (chunks : List (List Nat)) : List Nat :=
  (chunks.map (fun c => beBytes 4 c.length ++ c)).flatten ++ beBytes 4 0

/-- Frame bytes the client sends after the start command for a payload. -/
def instreamPayload (data : List Nat) : List Nat :=
  frameEnc (chunks8192 data)

/-- Bytes of the `b"zINSTREAM\0"` start command. -/
def instreamCmd : List Nat := strToBytes "zINSTREAM" ++ [0]

/-- Complete byte stream written on the scan connection. -/
def instreamWire (data : List Nat) : List Nat := instreamCmd ++ instreamPayload data

/-- Reference decoder for the frame stream: reads a 4-byte big-endian
length, then that many payload bytes, until the zero-length terminator;
the fuel bounds the number of frames. -/
def parseFrames : Nat → List Nat → Option (List Nat)
  | fuel + 1, b0 :: b1 :: b2 :: b3 :: rest =>
    let n := beVal4 b0 b1 b2 b3
    if n = 0 then (if rest.isEmpty then some [] else none)
    else if n ≤ rest.length then
      match parseFrames fuel (rest.drop n) with
      | some tail => some (rest.take n ++ tail)
      | none => none
    else none
  | _, _ => none

theorem beBytes4_eq (n : Nat) :
    beBytes 4 n = [(n >>> 24) % 256, (n >>> 16) % 256, (n >>> 8) % 256, n % 256] := by
  simp [beBytes]

theorem beVal4_beBytes (n : Nat) (h : n < 2 ^ 32) :
    beVal4 ((n >>> 24) % 256) ((n >>> 16) % 256) ((n >>> 8) % 256) (n % 256) = n := by
  simp only [beVal4, Nat.shiftRight_eq_div_pow]
  omega

theorem parseFrames_cons (n : Nat) (h32 : n < 2 ^ 32) (hpos : 0 < n)
    (body rest : List Nat) (hlen : body.length = n) (fuel : Nat) :
    parseFrames (fuel + 1) (beBytes 4 n ++ (body ++ rest)) =
      match parseFrames fuel rest with
      | some tail => some (body ++ tail)
      | none => none := by
  subst hlen
  rw [beBytes4_eq]
  simp only [List.cons_append, List.nil_append, parseFrames,
    beVal4_beBytes body.length h32]
  rw [if_neg (Nat.pos_iff_ne_zero.mp hpos), if_pos]
  · simp only [List.append_eq, List.nil_append]
    rw [List.take_left, List.drop_left]
  · simp [List.length_append]

theorem parseFrames_term (fuel : Nat) :
    parseFrames (fuel + 1) (beBytes 4 0) = some [] := by
  simp [beBytes, parseFrames, beVal4]

theorem parseFrames_frameEnc (chunks : List (List Nat)) :
    ∀ fuel : Nat, chunks.length + 1 ≤ fuel →
      (∀ c ∈ chunks, 0 < c.length ∧ c.length < 2 ^ 32) →
      parseFrames fuel (frameEnc chunks) = some chunks.flatten := by
  induction chunks with
  | nil =>
    intro fuel hf _
    match fuel, hf with
    | f + 1, _ => simpa [frameEnc] using parseFrames_term f
  | cons c cs ih =>
    intro fuel hf hb
    simp only [List.length_cons] at hf
    match fuel, hf with
    | f + 1, hf =>
      have hc := hb c (List.mem_cons_self c cs)
      have henc : frameEnc (c :: cs) = beBytes 4 c.length ++ (c ++ frameEnc cs) := by
        simp [frameEnc, List.append_assoc]
      rw [henc, parseFrames_cons c.length hc.2 hc.1 c (frameEnc cs) rfl f]
      rw [ih f (by omega) (fun x hx => hb x (List.mem_cons_of_mem c hx))]
      simp

theorem chunks8192_flatten (l : List Nat) : (chunks8192 l).flatten = l := by
  induction l using chunks8192.induct with
  | case1 => simp [chunks8192]
  | case2 b rest ih =>
    rw [chunks8192]
    simp only [List.flatten_cons, ih, List.take_append_drop]

theorem chunks8192_bounds (l : List Nat) :
    ∀ c ∈ chunks8192 l, 0 < c.length ∧ c.length ≤ 8192 := by
  induction l using chunks8192.induct with
  | case1 => intro c hc; simp [chunks8192] at hc
  | case2 b rest ih =>
    intro c hc
    rw [chunks8192] at hc
    rcases List.mem_cons.mp hc with h | h
    · subst h
      constructor
      · simp [List.length_take]
      · simp [List.length_take]
    · exact ih c h

/-! ## Enumerations (`app/models/document.py`) -/

/-- Document lifecycle status. -/
inductive DocumentStatus
  | active
  | archived
  | deleted
  | processing
  | quarantined
deriving DecidableEq

/-- Upload status of an upload response. -/
inductive UploadStatus
  | pending
  | processing
  | completed
  | failed
deriving DecidableEq

/-- Scan job lifecycle status. -/
inductive ScanStatus
  | pending
  | scanning
  | completed
  | failed
deriving DecidableEq

/-- String value of a `ScanStatus`, as stored in Redis job records. -/
def ScanStatus.value : ScanStatus → String
  | .pending => "pending"
  | .scanning => "scanning"
  | .completed => "completed"
  | .failed => "failed"

/-- Scan result classification. -/
inductive ScanResultType
  | clean
  | infected
  | suspicious
  | error
deriving DecidableEq

/-- String value of a `ScanResultType`. -/
def ScanResultType.value : ScanResultType → String
  | .clean => "clean"
  | .infected => "infected"
  | .suspicious => "suspicious"
  | .error => "error"

/-- Threat severity levels. -/
inductive ThreatSeverity
  | low
  | medium
  | high
  | critical
deriving DecidableEq

/-- Storage backend kinds. -/
inductive StorageBackendKind
  | s3
  | minio
  | gcs
  | azure
deriving DecidableEq

/-- Pydantic `ThreatDetail` model. -/
structure ThreatDetailM where
  name : String
  type : String
  severity : ThreatSeverity
  description : Option String
deriving DecidableEq

/-- Pydantic `ScanResult` model returned by the scanner service. -/
structure ScanResultM where
  scan_id : String
  document_id : String
  status : ScanStatus
  result : ScanResultType
  scanned_at : Nat
  duration_ms : Nat
  threats : List ThreatDetailM
  scanner_version : Option String
deriving DecidableEq

/-! ## Job Coordinator (`app/services/redis_client.py`)

Redis is modelled as an association list from full key strings to entries
carrying the remaining TTL in seconds and the JSON record, plus the
`scan_queue` list.  A TTL-expired key is modelled as an absent entry,
which is what a Redis `GET` observes. -/

/-- Generic association-list lookup on string keys. -/
def lookupKey {α : Type} : List (String × α) → String → Option α
  | [], _ => none
  | (k0, v0) :: rest, k => if k0 == k then some v0 else lookupKey rest k

/-- Generic association-list overwrite-or-insert, the model of `SETEX`. -/
def setKey {α : Type} : List (String × α) → String → α → List (String × α)
  | [], k, v => [(k, v)]
  | (k0, v0) :: rest, k, v =>
    if k0 == k then (k, v) :: rest else (k0, v0) :: setKey rest k v

/-- Generic association-list removal, the model of `DEL`. -/
def removeKey {α : Type} : List (String × α) → String → List (String × α)
  | [], _ => []
  | (k0, v0) :: rest, k => if k0 == k then rest else (k0, v0) :: removeKey rest k

/-- JSON record of a scan job (`create_scan_job` / `update_scan_job`). -/
structure ScanJobData where
  scan_id : String
  document_id : String
  user_id : String
  tenant_id : String
  status : String
  result : Option String
  threats : Option (List ThreatDetailM)
  duration_ms : Option Nat
  error_message : Option String
  created_at : Nat
  updated_at : Nat
deriving DecidableEq

/-- Stored entry: remaining TTL in seconds plus the record. -/
structure ScanJobEntry where
  ttl : Int
  data : ScanJobData
deriving DecidableEq

/-- State of the scan-job keyspace and the `scan_queue` list. -/
structure ScanRedis where
  store : List (String × ScanJobEntry)
  queue : List String
deriving DecidableEq

/-- Key of a scan job record. -/
def scanJobKey (scan_id : String) : String := "scan_job:" ++ scan_id

/-- Model of `RedisClient.create_scan_job`: `SETEX` a fresh pending record
with a 30-minute TTL and `LPUSH` the id onto `scan_queue`. -/
def create_scan_job (r : ScanRedis) (now : Nat)
    (scan_id document_id user_id tenant_id : String) : Bool × ScanRedis :=
  let job_data : ScanJobData :=
    { scan_id := scan_id, document_id := document_id, user_id := user_id,
      tenant_id := tenant_id, status := "pending", result := none, threats := none,
      duration_ms := none, error_message := none, created_at := now, updated_at := now }
  let r1 : ScanRedis :=
    { store := setKey r.store (scanJobKey scan_id) ⟨30 * 60, job_data⟩,
      queue := scan_id :: r.queue }
  (true, r1)

/-- Model of `RedisClient.get_scan_job`. -/
def get_scan_job (r : ScanRedis) (scan_id : String) : Option ScanJobData :=
  (lookupKey r.store (scanJobKey scan_id)).map (fun e => e.data)

/-- Model of `RedisClient.update_scan_job`: read the record; absent (or
TTL-expired, hence absent) keys report `false` and write nothing; present
keys get the provided fields overwritten, `updated_at` refreshed and the
remaining TTL preserved with a 60-second floor. -/
def update_scan_job (r : ScanRedis) (now : Nat) (scan_id : String)
    (status : Option String) (result : Option String)
    (threats : Option (List ThreatDetailM)) (duration_ms : Option Nat)
    (error_message : Option String) : Bool × ScanRedis :=
  match lookupKey r.store (scanJobKey scan_id) with
  | none => (false, r)
  | some entry =>
    let jd := entry.data
    let jd := match status with | some v => { jd with status := v } | none => jd
    let jd := match result with | some v => { jd with result := some v } | none => jd
    let jd := match threats with | some v => { jd with threats := some v } | none => jd
    let jd := match duration_ms with | some v => { jd with duration_ms := some v } | none => jd
    let jd := match error_message with | some v => { jd with error_message := some v } | none => jd
    let jd := { jd with updated_at := now }
    (true, { r with store := setKey r.store (scanJobKey scan_id) ⟨max entry.ttl 60, jd⟩ })

/-- JSON record of an upload session (`create_upload_session`). -/
structure UploadSessionData where
  session_id : String
  user_id : String
  tenant_id : String
  filename : String
  content_type : String
  expected_size : Option Nat
  uploaded_size : Nat
  status : String
  error_message : Option String
  created_at : Nat
  updated_at : Nat
deriving DecidableEq

/-- Stored entry for an upload session. -/
structure UploadSessionEntry where
  ttl : Int
  data : UploadSessionData
deriving DecidableEq

/-- Keyspace of upload sessions. -/
abbrev SessionStore : Type := List (String × UploadSessionEntry)

/-- Key of an upload session record. -/
def sessionKey (session_id : String) : String := "upload_session:" ++ session_id

/-- Model of `RedisClient.get_upload_session`. -/
def get_upload_session (st : SessionStore) (session_id : String) : Option UploadSessionData :=
  (lookupKey st (sessionKey session_id)).map (fun e => e.data)

/-- Model of `RedisClient.update_upload_session`: absent/expired ids report
`false` and write nothing; otherwise overwrite the provided fields, refresh
`updated_at` and preserve the TTL with a 60-second floor. -/
def update_upload_session (st : SessionStore) (now : Nat) (session_id : String)
    (uploaded_size : Option Nat) (status : Option String)
    (error_message : Option String) : Bool × SessionStore :=
  match lookupKey st (sessionKey session_id) with
  | none => (false, st)
  | some entry =>
    let sd := entry.data
    let sd := match uploaded_size with | some v => { sd with uploaded_size := v } | none => sd
    let sd := match status with | some v => { sd with status := v } | none => sd
    let sd := match error_message with | some v => { sd with error_message := some v } | none => sd
    let sd := { sd with updated_at := now }
    (true, setKey st (sessionKey session_id) ⟨max entry.ttl 60, sd⟩)

/-- Model of `RedisClient.delete_upload_session`. -/
def delete_upload_session (st : SessionStore) (session_id : String) : Bool × SessionStore :=
  match lookupKey st (sessionKey session_id) with
  | none => (false, st)
  | some _ => (true, removeKey st (sessionKey session_id))

/-! ## Scan Protocol Client reply handling (`ClamAVScanner`)

The daemon's behaviour on one scan call is an oracle: either a textual
reply, a timeout, or a connection failure.  `versionReply` is the oracle
for the companion `zVERSION` probe (`none` models a probe failure). -/

/-- Behaviour of the daemon on the scan connection. -/
inductive DaemonReply
  | reply (s : String)
  | timeout
  | connFail (msg : String)
deriving DecidableEq

/-- Oracles for one interaction with the scanning daemon. -/
structure Daemon where
  scanReply : DaemonReply
  versionReply : Option String
deriving DecidableEq

/-- Result dictionary produced by `_scan_with_clamav`. -/
structure ClamOutcome where
  infected : Bool
  threats : List String
  error : Bool
  error_message : Option String
  version : String
deriving DecidableEq

/-- Model of `ClamAVScanner._get_version`: reply stripped, or `"unknown"`
when the probe fails. -/
def get_version (d : Daemon) : String :=
  match d.versionReply with
  | some s => pyStrip s
  | none => "unknown"

/-- Model of the reply parsing at `virus_scanner.py` lines 176-199 applied
to the decoded, stripped reply string.  A reply containing `"FOUND"` but no
colon raises `IndexError` at the `split(":")[1]` access, which the outer
handler converts to an error outcome; the pair's second component counts
the `zVERSION` probe connections made. -/
def clamavClassifyReply (response_str : String) (d : Daemon) : ClamOutcome × Nat :=
  if pyEndsWith response_str "OK" then
    ({ infected := false, threats := [], error := false, error_message := none,
       version := get_version d }, 1)
  else if pyContains response_str "FOUND" then
    match (splitChar ':' response_str.data).drop 1 with
    | [] =>
      ({ infected := false, threats := [], error := true,
         error_message := some "list index out of range", version := "unknown" }, 0)
    | second :: _ =>
      let threat_name := pyReplace (pyStrip ⟨second⟩) " FOUND" ""
      ({ infected := true, threats := [threat_name], error := false, error_message := none,
         version := get_version d }, 1)
  else
    ({ infected := false, threats := [], error := true, error_message := some response_str,
       version := get_version d }, 1)

/-- Model of `ClamAVScanner._scan_with_clamav`: returns the outcome
dictionary and the number of connections opened to the daemon (the scan
connection plus any `zVERSION` probe).  Timeouts and connection failures
never raise; they become error outcomes. -/
def scan_with_clamav (d : Daemon) : ClamOutcome × Nat :=
  match d.scanReply with
  | DaemonReply.timeout =>
    ({ infected := false, threats := [], error := true,
       error_message := some "Scan timeout", version := "unknown" }, 1)
  | DaemonReply.connFail msg =>
    ({ infected := false, threats := [], error := true,
       error_message := some msg, version := "unknown" }, 1)
  | DaemonReply.reply raw =>
    let response_str := pyStrip raw
    let res := clamavClassifyReply response_str d
    (res.1, 1 + res.2)

/-- Model of `ClamAVScanner.scan_bytes`.  Inputs: the `VIRUS_SCAN_ENABLED`
flag, the daemon oracle, the payload, the document id, the fresh scan id,
the start/end clock values, and the scan-job Redis state.  Output: the
`ScanResult`, the new Redis state, and the number of daemon connections
opened.  Redis itself is modelled as available, so the handler for Redis
failures at lines 111-131 is not exercised. -/
def scan_bytes (enabled : Bool) (d : Daemon) (data : List Nat)
    (document_id scan_id : String) (start_time end_time : Nat)
    (r : ScanRedis) : ScanResultM × ScanRedis × Nat :=
  if enabled = false then
    ({ scan_id := scan_id, document_id := document_id, status := ScanStatus.completed,
       result := ScanResultType.clean, scanned_at := start_time, duration_ms := 0,
       threats := [], scanner_version := some "disabled" }, r, 0)
  else
    let (_, r1) := create_scan_job r start_time scan_id document_id "system" "system"
    let (_, r2) := update_scan_job r1 start_time scan_id (some ScanStatus.scanning.value)
      none none none none
    let (scan_result, conns) := scan_with_clamav d
    let duration_ms := end_time - start_time
    let threats := scan_result.threats.map (fun threat_name =>
      ({ name := threat_name, type := "virus", severity := ThreatSeverity.high,
         description := some ("Threat detected: " ++ threat_name) } : ThreatDetailM))
    let result_type :=
      if scan_result.infected then ScanResultType.infected
      else if scan_result.error then ScanResultType.error
      else ScanResultType.clean
    let res : ScanResultM :=
      { scan_id := scan_id, document_id := document_id, status := ScanStatus.completed,
        result := result_type, scanned_at := end_time, duration_ms := duration_ms,
        threats := threats, scanner_version := some scan_result.version }
    let (_, r3) := update_scan_job r2 end_time scan_id (some ScanStatus.completed.value)
      (some result_type.value) (some threats) (some duration_ms) none
    (res, r3, conns)

/-! ## Metadata store data model (`app/models/database.py`)

Rows are modelled as structures; the free-form `audit_metadata` JSON
column and the network-facing columns that no operation here reads
(`ip_address`, `user_agent`) are not modelled. -/

/-- Pydantic `StorageLocation` value object. -/
structure StorageLocationVal where
  backend : StorageBackendKind
  bucket : String
  key : String
  region : String
  endpoint_url : Option String
deriving DecidableEq

/-- Row of the `documents` table. -/
structure DocumentRec where
  id : String
  filename : String
  content_type : String
  size_bytes : Nat
  checksum : String
  owner_id : String
  tenant_id : String
  title : Option String
  description : Option String
  tags : List String
  attributes : List (String × String)
  status : DocumentStatus
  version : Nat
  created_at : Nat
  updated_at : Nat
deriving DecidableEq

/-- Row of the `storage_locations` table. -/
structure StorageLocationRec where
  id : String
  document_id : String
  backend : StorageBackendKind
  bucket : String
  key : String
  region : String
  endpoint_url : Option String
  is_primary : Bool
  created_at : Nat
deriving DecidableEq

/-- Row of the `document_versions` table. -/
structure DocumentVersionRec where
  id : String
  document_id : String
  version : Nat
  description : Option String
  size_bytes : Nat
  checksum : String
  backend : StorageBackendKind
  bucket : String
  key : String
  region : String
  endpoint_url : Option String
  created_by : String
  created_at : Nat
deriving DecidableEq

/-- Row of the `audit_logs` table. -/
structure AuditLogRec where
  id : String
  document_id : Option String
  action : String
  user_id : String
  tenant_id : String
  request_id : Option String
  status : String
  error_message : Option String
  created_at : Nat
deriving DecidableEq

/-- Row of the `scan_results` table. -/
structure ScanResultRec where
  id : String
  document_id : String
  scan_id : String
  status : ScanStatus
  result : Option ScanResultType
  scanner_version : Option String
  duration_ms : Option Nat
  started_at : Nat
  completed_at : Option Nat
  threats : List ThreatDetailM
deriving DecidableEq

/-- State of the metadata store. -/
structure DB where
  documents : List DocumentRec
  storage_locations : List StorageLocationRec
  versions : List DocumentVersionRec
  scan_results : List ScanResultRec
  audit_logs : List AuditLogRec
deriving DecidableEq

/-- Pydantic `DocumentCreate` request model (after its validators ran). -/
structure DocumentCreate where
  filename : String
  content_type : String
  title : Option String
  description : Option String
  tags : List String
  attributes : List (String × String)
deriving DecidableEq

/-- Pydantic `DocumentUpdate` request model; its `status` field exists on
the model but `DocumentService.update_document` never applies it. -/
structure DocumentUpdate where
  title : Option String
  description : Option String
  tags : Option (List String)
  attributes : Option (List (String × String))
  status : Option DocumentStatus
deriving DecidableEq

/-- Pydantic `DocumentMetadata` response model. -/
structure DocumentMetadataM where
  document_id : String
  filename : String
  content_type : String
  size_bytes : Nat
  owner_id : String
  tenant_id : String
  tags : List String
  title : Option String
  description : Option String
  created_at : Nat
  updated_at : Nat
  version : Nat
  status : DocumentStatus
  checksum : String
  attributes : List (String × String)
deriving DecidableEq

/-- Pydantic `VersionHistory` response model. -/
structure VersionHistoryM where
  version : Nat
  created_at : Nat
  created_by : String
  description : Option String
  size_bytes : Nat
  checksum : String
  location : StorageLocationVal
deriving DecidableEq

/-- Pydantic `DocumentResponse` model. -/
structure DocumentResponseM where
  metadata : DocumentMetadataM
  location : StorageLocationVal
  versions : List VersionHistoryM
  last_scan : Option ScanResultM
deriving DecidableEq

/-- Pydantic `UploadResponse` model. -/
structure UploadResponse where
  document_id : String
  status : UploadStatus
  location : StorageLocationVal
  uploaded_at : Nat
  size_bytes : Nat
  checksum : String
deriving DecidableEq

/-- Exception taxonomy used for control flow by the service layer. -/
inductive PyErr
  | valueError (msg : String)
  | permissionError (msg : String)
  | multipleResults
  | generic (msg : String)
deriving DecidableEq

deriving instance DecidableEq for Except

/-- Human-readable message of an exception (Python `str(e)`). -/
def PyErr.message : PyErr → String
  | PyErr.valueError m => m
  | PyErr.permissionError m => m
  | PyErr.multipleResults => "Multiple rows were found when exactly one was required"
  | PyErr.generic m => m

/-- Model of SQLAlchemy `scalar_one_or_none()`: no row, the unique row, or
`MultipleResultsFound`. -/
def scalarOneOrNone {α : Type} (p : α → Bool) (l : List α) : Except PyErr (Option α) :=
  match l.filter p with
  | [] => Except.ok none
  | [d] => Except.ok (some d)
  | _ => Except.error PyErr.multipleResults

/-- Mutation of the first row matching the query predicate, the model of
mutating the ORM object returned by `scalar_one_or_none` and committing. -/
def updateFirst {α : Type} (p : α → Bool) (f : α → α) : List α → List α
  | [] => []
  | d :: ds => if p d then f d :: ds else d :: updateFirst p f ds

/-- The document query used by get/update/delete: id and tenant match and
status is not `deleted`. -/
def docQuery (document_id tenant_id : String) (d : DocumentRec) : Bool :=
  d.id == document_id && d.tenant_id == tenant_id && !(d.status == DocumentStatus.deleted)

/-! ## Storage Gateway (`app/storage/s3_backend.py`, as consumed here)

The object store is an association list from keys to byte lists; a put
oracle selects whether the backend call succeeds. -/

/-- Keyspace of the object store. -/
abbrev Storage : Type := List (String × List Nat)

/-- Static backend configuration resolved at startup. -/
structure StorageConfig where
  backend : StorageBackendKind
  bucket : String
  region : String
  endpoint_url : Option String
deriving DecidableEq

/-- Model of `upload_file`: on success the object is written under the key
and the storage location is returned; on failure a storage error is
raised before any metadata mutation. -/
def upload_file (cfg : StorageConfig) (put_ok : Bool) (storage : Storage)
    (file_data : List Nat) (key : String) :
    Except PyErr (StorageLocationVal × Storage) :=
  if put_ok then
    Except.ok
      ({ backend := cfg.backend, bucket := cfg.bucket, key := key, region := cfg.region,
         endpoint_url := cfg.endpoint_url }, setKey storage key file_data)
  else
    Except.error (PyErr.generic "Upload failed")

/-- Model of `download_file`: bytes stored under the location's key. -/
def download_file (storage : Storage) (location : StorageLocationVal) :
    Except PyErr (List Nat) :=
  match lookupKey storage location.key with
  | some bytes => Except.ok bytes
  | none => Except.error (PyErr.generic "Download failed")

/-! ## Upload Orchestrator (`DocumentService.upload_document`)

Fresh `uuid.uuid4()` identifiers are supplied explicitly; `put_ok` and
`txn_ok` are the oracles for the storage `put` and the metadata
transaction `commit`.  Per `get_db`, a failed commit rolls the whole
session back, so the four pending inserts are discarded together; the
outer handler then records a failure `AuditLog` in a fresh transaction
and re-raises. -/

/-- Fresh identifiers drawn by one `upload_document` call. -/
structure UploadIds where
  document_id : String
  location_id : String
  version_id : String
  audit_id : String
  fail_audit_id : String
deriving DecidableEq

/-- Combined state touched by the upload orchestrator. -/
structure SysState where
  db : DB
  storage : Storage
  sessions : SessionStore
deriving DecidableEq

/-- Model of `DocumentService.upload_document`. -/
def upload_document (cfg : StorageConfig) (put_ok txn_ok : Bool)
    (file_data : List Nat) (document_create : DocumentCreate)
    (user_id tenant_id : String) (session_id : Option String)
    (ids : UploadIds) (now : Nat) (st : SysState) :
    Except PyErr UploadResponse × SysState :=
  let checksum := sha256hex file_data
  let storage_key := tenant_id ++ "/" ++ ids.document_id ++ "/" ++ document_create.filename
  match upload_file cfg put_ok st.storage file_data storage_key with
  | Except.error e =>
    let fail_audit : AuditLogRec :=
      { id := ids.fail_audit_id, document_id := some ids.document_id, action := "upload",
        user_id := user_id, tenant_id := tenant_id, request_id := session_id,
        status := "failure", error_message := some e.message, created_at := now }
    (Except.error e,
     { st with db := { st.db with audit_logs := st.db.audit_logs ++ [fail_audit] } })
  | Except.ok (storage_location, storage1) =>
    let document : DocumentRec :=
      { id := ids.document_id, filename := document_create.filename,
        content_type := document_create.content_type, size_bytes := file_data.length,
        checksum := checksum, owner_id := user_id, tenant_id := tenant_id,
        title := document_create.title, description := document_create.description,
        tags := document_create.tags, attributes := document_create.attributes,
        status := DocumentStatus.active, version := 1, created_at := now, updated_at := now }
    let storage_loc : StorageLocationRec :=
      { id := ids.location_id, document_id := ids.document_id,
        backend := storage_location.backend, bucket := storage_location.bucket,
        key := storage_location.key, region := storage_location.region,
        endpoint_url := storage_location.endpoint_url, is_primary := true, created_at := now }
    let version : DocumentVersionRec :=
      { id := ids.version_id, document_id := ids.document_id, version := 1,
        description := some "Initial version", size_bytes := file_data.length,
        checksum := checksum, backend := storage_location.backend,
        bucket := storage_location.bucket, key := storage_location.key,
        region := storage_location.region, endpoint_url := storage_location.endpoint_url,
        created_by := user_id, created_at := now }
    let audit_log : AuditLogRec :=
      { id := ids.audit_id, document_id := some ids.document_id, action := "upload",
        user_id := user_id, tenant_id := tenant_id, request_id := session_id,
        status := "success", error_message := none, created_at := now }
    if txn_ok then
      let db1 : DB :=
        { documents := st.db.documents ++ [document],
          storage_locations := st.db.storage_locations ++ [storage_loc],
          versions := st.db.versions ++ [version],
          scan_results := st.db.scan_results,
          audit_logs := st.db.audit_logs ++ [audit_log] }
      let sessions1 :=
        match session_id with
        | some sid => (delete_upload_session st.sessions sid).2
        | none => st.sessions
      (Except.ok
        { document_id := ids.document_id, status := UploadStatus.completed,
          location := storage_location, uploaded_at := now,
          size_bytes := file_data.length, checksum := checksum },
       { db := db1, storage := storage1, sessions := sessions1 })
    else
      let e := PyErr.generic "metadata transaction failed"
      let fail_audit : AuditLogRec :=
        { id := ids.fail_audit_id, document_id := some ids.document_id, action := "upload",
          user_id := user_id, tenant_id := tenant_id, request_id := session_id,
          status := "failure", error_message := some e.message, created_at := now }
      (Except.error e,
       { st with storage := storage1,
                 db := { st.db with audit_logs := st.db.audit_logs ++ [fail_audit] } })

/-! ## Read / update / delete (`DocumentService`) -/

/-- Failure audit entry appended by a service handler's `except` branch. -/
def failAudit (audit_id : String) (document_id : Option String) (action : String)
    (user_id tenant_id : String) (e : PyErr) (now : Nat) (db : DB) : DB :=
  { db with audit_logs := db.audit_logs ++
      [{ id := audit_id, document_id := document_id, action := action, user_id := user_id,
         tenant_id := tenant_id, request_id := none, status := "failure",
         error_message := some e.message, created_at := now }] }

/-- Python `max(scans, key=lambda x: x.started_at)`: first row with the
largest `started_at`. -/
def latestScan : List ScanResultRec → Option ScanResultRec
  | [] => none
  | x :: xs => some (xs.foldl (fun m y => if y.started_at > m.started_at then y else m) x)

/-- Model of `DocumentService.get_document` (the `include_content` flag has
no effect in the source and is omitted).  A completed scan row always
carries a result; `getD` covers the impossible NULL column. -/
def get_document (db : DB) (document_id user_id tenant_id : String)
    (user_scopes : Option (List String)) (audit_id : String) (now : Nat) :
    Except PyErr DocumentResponseM × DB :=
  match scalarOneOrNone (docQuery document_id tenant_id) db.documents with
  | Except.error e =>
    (Except.error e, failAudit audit_id (some document_id) "get" user_id tenant_id e now db)
  | Except.ok none =>
    let e := PyErr.valueError ("Document not found: " ++ document_id)
    (Except.error e, failAudit audit_id (some document_id) "get" user_id tenant_id e now db)
  | Except.ok (some document) =>
    let has_admin_access :=
      match user_scopes with
      | some scopes => !scopes.isEmpty && scopes.contains "doc.admin"
      | none => false
    if document.owner_id != user_id && !has_admin_access then
      let e := PyErr.permissionError "Access denied to document"
      (Except.error e, failAudit audit_id (some document_id) "get" user_id tenant_id e now db)
    else
      match (db.storage_locations.filter (fun l => l.document_id == document.id)).find?
          (fun l => l.is_primary) with
      | none =>
        let e := PyErr.valueError "No storage location found for document"
        (Except.error e, failAudit audit_id (some document_id) "get" user_id tenant_id e now db)
      | some sl =>
        let metadata : DocumentMetadataM :=
          { document_id := document.id, filename := document.filename,
            content_type := document.content_type, size_bytes := document.size_bytes,
            owner_id := document.owner_id, tenant_id := document.tenant_id,
            tags := document.tags, title := document.title,
            description := document.description, created_at := document.created_at,
            updated_at := document.updated_at, version := document.version,
            status := document.status, checksum := document.checksum,
            attributes := document.attributes }
        let location : StorageLocationVal :=
          { backend := sl.backend, bucket := sl.bucket, key := sl.key, region := sl.region,
            endpoint_url := sl.endpoint_url }
        let versions :=
          (db.versions.filter (fun v => v.document_id == document.id)).map
            (fun v => ({ version := v.version, created_at := v.created_at,
                         created_by := v.created_by, description := v.description,
                         size_bytes := v.size_bytes, checksum := v.checksum,
                         location := { backend := v.backend, bucket := v.bucket, key := v.key,
                                       region := v.region, endpoint_url := v.endpoint_url } }
                       : VersionHistoryM))
        let last_scan :=
          match latestScan (db.scan_results.filter (fun s => s.document_id == document.id)) with
          | none => none
          | some latest =>
            if latest.status == ScanStatus.completed then
              some ({ scan_id := latest.scan_id, document_id := latest.document_id,
                      status := latest.status,
                      result := latest.result.getD ScanResultType.error,
                      scanned_at := latest.completed_at.getD latest.started_at,
                      duration_ms := latest.duration_ms.getD 0,
                      threats := latest.threats,
                      scanner_version := latest.scanner_version } : ScanResultM)
            else none
        let db1 : DB :=
          { db with audit_logs := db.audit_logs ++
              [{ id := audit_id, document_id := some document_id, action := "get",
                 user_id := user_id, tenant_id := tenant_id, request_id := none,
                 status := "success", error_message := none, created_at := now }] }
        (Except.ok
          { metadata := metadata, location := location, versions := versions,
            last_scan := last_scan }, db1)

/-- Model of `DocumentService.delete_document`: a soft delete that only
matches documents of the caller's tenant that are not already deleted. -/
def delete_document (db : DB) (document_id user_id tenant_id : String)
    (user_scopes : Option (List String)) (audit_id : String) (now : Nat) :
    Except PyErr Bool × DB :=
  match scalarOneOrNone (docQuery document_id tenant_id) db.documents with
  | Except.error e =>
    (Except.error e, failAudit audit_id (some document_id) "delete" user_id tenant_id e now db)
  | Except.ok none =>
    let e := PyErr.valueError ("Document not found: " ++ document_id)
    (Except.error e, failAudit audit_id (some document_id) "delete" user_id tenant_id e now db)
  | Except.ok (some document) =>
    let has_admin_access :=
      match user_scopes with
      | some scopes => !scopes.isEmpty && scopes.contains "doc.admin"
      | none => false
    if document.owner_id != user_id && !has_admin_access then
      let e := PyErr.permissionError "Access denied to document"
      (Except.error e, failAudit audit_id (some document_id) "delete" user_id tenant_id e now db)
    else
      let documents1 := updateFirst (docQuery document_id tenant_id)
        (fun d => { d with status := DocumentStatus.deleted, updated_at := now }) db.documents
      let db1 : DB :=
        { db with documents := documents1,
                  audit_logs := db.audit_logs ++
                    [{ id := audit_id, document_id := some document_id, action := "delete",
                       user_id := user_id, tenant_id := tenant_id, request_id := none,
                       status := "success", error_message := none, created_at := now }] }
      (Except.ok true, db1)

/-- Field mutations applied by `update_document` to the matched row. -/
def applyDocumentUpdate (document_update : DocumentUpdate) (now : Nat)
    (d : DocumentRec) : DocumentRec :=
  let d := match document_update.title with
    | some v => { d with title := some v }
    | none => d
  let d := match document_update.description with
    | some v => { d with description := some v }
    | none => d
  let d := match document_update.tags with
    | some v => { d with tags := v }
    | none => d
  let d := match document_update.attributes with
    | some v => { d with attributes := v }
    | none => d
  { d with updated_at := now }

/-- Model of `DocumentService.update_document`: only the provided metadata
fields of the matched row are overwritten and `updated_at` is refreshed;
the response is re-read through `get_document` (which appends its own
audit entry). -/
def update_document (db : DB) (document_id : String) (document_update : DocumentUpdate)
    (user_id tenant_id : String) (audit_id get_audit_id : String) (now : Nat) :
    Except PyErr DocumentResponseM × DB :=
  match scalarOneOrNone (docQuery document_id tenant_id) db.documents with
  | Except.error e =>
    (Except.error e, failAudit audit_id (some document_id) "update" user_id tenant_id e now db)
  | Except.ok none =>
    let e := PyErr.valueError ("Document not found: " ++ document_id)
    (Except.error e, failAudit audit_id (some document_id) "update" user_id tenant_id e now db)
  | Except.ok (some document) =>
    if document.owner_id != user_id then
      let e := PyErr.permissionError "Access denied to document"
      (Except.error e, failAudit audit_id (some document_id) "update" user_id tenant_id e now db)
    else
      let documents1 := updateFirst (docQuery document_id tenant_id)
        (applyDocumentUpdate document_update now) db.documents
      let db1 : DB :=
        { db with documents := documents1,
                  audit_logs := db.audit_logs ++
                    [{ id := audit_id, document_id := some document_id, action := "update",
                       user_id := user_id, tenant_id := tenant_id, request_id := none,
                       status := "success", error_message := none, created_at := now }] }
      get_document db1 document_id user_id tenant_id none get_audit_id now

/-! ## Scan route (`rest_routes.py::scan_document`) -/

/-- HTTP error raised by the route's exception mapping. -/
inductive HttpErr
  | notFound (detail : String)
  | forbidden (detail : String)
  | internal (detail : String)
deriving DecidableEq

/-- Body returned by the scan route. -/
structure ScanRouteResp where
  scan_id : String
  result : ScanResultType
  threats : List ThreatDetailM
  duration_ms : Nat
deriving DecidableEq

/-- Model of the REST `scan_document` route: read the document (and with it
its primary storage location), download the bytes, run `scan_bytes`.
`ValueError` maps to 404, `PermissionError` to 403, anything else to 500.
The route persists nothing to the `scan_results` table; scan state lives
only in the Redis job record.  The last component counts connections
opened to the scanner daemon. -/
def scan_document (enabled : Bool) (d : Daemon) (document_id user_id tenant_id : String)
    (scopes : List String) (get_audit_id scan_id : String) (t1 t2 : Nat)
    (db : DB) (storage : Storage) (r : ScanRedis) :
    Except HttpErr ScanRouteResp × DB × ScanRedis × Nat :=
  match get_document db document_id user_id tenant_id (some scopes) get_audit_id t1 with
  | (Except.error (PyErr.valueError m), db1) => (Except.error (HttpErr.notFound m), db1, r, 0)
  | (Except.error (PyErr.permissionError m), db1) =>
    (Except.error (HttpErr.forbidden m), db1, r, 0)
  | (Except.error _, db1) => (Except.error (HttpErr.internal "Internal server error"), db1, r, 0)
  | (Except.ok document, db1) =>
    match download_file storage document.location with
    | Except.error _ => (Except.error (HttpErr.internal "Internal server error"), db1, r, 0)
    | Except.ok file_data =>
      let (scan_result, r1, conns) := scan_bytes enabled d file_data document_id scan_id t1 t2 r
      (Except.ok
        { scan_id := scan_result.scan_id, result := scan_result.result,
          threats := scan_result.threats, duration_ms := scan_result.duration_ms },
       db1, r1, conns)

/-! ## Helper lemmas -/

theorem lookupKey_setKey {α : Type} (st : List (String × α)) (k : String) (v : α) :
    lookupKey (setKey st k v) k = some v := by
  induction st with
  | nil => simp [setKey, lookupKey]
  | cons p rest ih =>
    obtain ⟨k0, v0⟩ := p
    by_cases hk : (k0 == k) = true
    · simp [setKey, hk, lookupKey]
    · simp [setKey, hk, lookupKey, ih]

theorem mem_updateFirst {α : Type} (p : α → Bool) (f : α → α) (l : List α) :
    ∀ x ∈ updateFirst p f l, x ∈ l ∨ ∃ y ∈ l, x = f y := by
  induction l with
  | nil => simp [updateFirst]
  | cons a as ih =>
    intro x hx
    rw [updateFirst] at hx
    by_cases hp : p a = true
    · rw [if_pos hp] at hx
      rcases List.mem_cons.mp hx with h | h
      · exact Or.inr ⟨a, List.mem_cons_self a as, h⟩
      · exact Or.inl (List.mem_cons_of_mem a h)
    · rw [if_neg hp] at hx
      rcases List.mem_cons.mp hx with h | h
      · exact Or.inl (h ▸ List.mem_cons_self a as)
      · rcases ih x h with h2 | ⟨y, hy, hxy⟩
        · exact Or.inl (List.mem_cons_of_mem a h2)
        · exact Or.inr ⟨y, List.mem_cons_of_mem a hy, hxy⟩

theorem updateFirst_of_filter_single {α : Type} (p : α → Bool) (f : α → α)
    (l : List α) (d : α) (h : l.filter p = [d]) : f d ∈ updateFirst p f l := by
  induction l with
  | nil => simp [List.filter] at h
  | cons a as ih =>
    rw [updateFirst]
    by_cases hp : p a = true
    · rw [List.filter_cons_of_pos hp] at h
      have ha : a = d := (List.cons.injEq _ _ _ _).mp h |>.1
      rw [if_pos hp, ha]
      exact List.mem_cons_self _ _
    · rw [List.filter_cons_of_neg (by simpa using hp)] at h
      rw [if_neg hp]
      exact List.mem_cons_of_mem a (ih h)

/-! ## Claim theorems -/

/-- Claim C10: with `VIRUS_SCAN_ENABLED` false, `scan_bytes` returns, for
every payload and document id, a completed/clean result with no threats,
duration 0 and scanner version `"disabled"`, opens no daemon connection,
and creates no scan-job record or queue entry (the Redis state is
untouched). -/
theorem scan_bytes_disabled_result (d : Daemon) (data : List Nat)
    (document_id scan_id : String) (start_time end_time : Nat) (r : ScanRedis) :
    scan_bytes false d data document_id scan_id start_time end_time r =
      ({ scan_id := scan_id, document_id := document_id, status := ScanStatus.completed,
         result := ScanResultType.clean, scanned_at := start_time, duration_ms := 0,
         threats := [], scanner_version := some "disabled" }, r, 0) := rfl

/-- Claim C5: for every payload, the frames the Scan Protocol Client sends
after `zINSTREAM\0` each carry between 1 and 8192 payload bytes behind a
4-byte big-endian length, their payloads concatenate back to the
original payload, the full wire stream is the command followed by the
frames, and the reference frame decoder recovers the payload exactly
(the zero-length terminator closing the stream). -/
theorem instream_protocol_roundtrip (data : List Nat) :
    (chunks8192 data).all
      (fun c => decide (0 < c.length) && decide (c.length ≤ 8192)) = true ∧
    (chunks8192 data).flatten = data ∧
    instreamWire data = instreamCmd ++ instreamPayload data ∧
    parseFrames ((chunks8192 data).length + 1) (instreamPayload data) = some data := by
  refine ⟨?_, chunks8192_flatten data, rfl, ?_⟩
  · rw [List.all_eq_true]
    intro c hc
    have h := chunks8192_bounds data c hc
    simp [h.1, h.2]
  · have h := parseFrames_frameEnc (chunks8192 data) ((chunks8192 data).length + 1)
      le_rfl (fun c hc =>
        ⟨(chunks8192_bounds data c hc).1,
         lt_of_le_of_lt (chunks8192_bounds data c hc).2 (by norm_num)⟩)
    rw [instreamPayload, h, chunks8192_flatten]

/-- Claim C1: a scan call classifies as clean only when the daemon sent a
textual reply whose stripped form ends with `"OK"`; a reply that neither
ends with `"OK"` nor contains `"FOUND"` classifies as error (not
infected, not clean), and a timeout or connection failure always
classifies as error — never as clean. -/
theorem clamav_never_clean_on_ambiguity (d : Daemon) :
    ((scan_with_clamav d).1.infected = false ∧ (scan_with_clamav d).1.error = false →
      ∃ s, d.scanReply = DaemonReply.reply s ∧ pyEndsWith (pyStrip s) "OK" = true) ∧
    (∀ s, d.scanReply = DaemonReply.reply s →
      pyEndsWith (pyStrip s) "OK" = false → pyContains (pyStrip s) "FOUND" = false →
      (scan_with_clamav d).1.error = true ∧ (scan_with_clamav d).1.infected = false) ∧
    (d.scanReply = DaemonReply.timeout →
      (scan_with_clamav d).1.error = true ∧ (scan_with_clamav d).1.infected = false) ∧
    (∀ m, d.scanReply = DaemonReply.connFail m →
      (scan_with_clamav d).1.error = true ∧ (scan_with_clamav d).1.infected = false) := by
  have hcl : ∀ rs, (clamavClassifyReply rs d).1.infected = false →
      (clamavClassifyReply rs d).1.error = false → pyEndsWith rs "OK" = true := by
    intro rs hinf herr
    by_contra h1
    rw [Bool.not_eq_true] at h1
    by_cases h2 : pyContains rs "FOUND" = true
    · rcases hsp : (splitChar ':' rs.data).drop 1 with _ | ⟨x, xs⟩
      · simp [clamavClassifyReply, h1, h2, hsp] at herr
      · simp [clamavClassifyReply, h1, h2, hsp] at hinf
    · rw [Bool.not_eq_true] at h2
      simp [clamavClassifyReply, h1, h2] at herr
  have herrb : ∀ rs, pyEndsWith rs "OK" = false → pyContains rs "FOUND" = false →
      (clamavClassifyReply rs d).1.error = true ∧
        (clamavClassifyReply rs d).1.infected = false := by
    intro rs h1 h2
    simp [clamavClassifyReply, h1, h2]
  rcases hd : d.scanReply with s | _ | m
  · refine ⟨?_, ?_, ?_, ?_⟩
    · rintro ⟨hinf, herr⟩
      refine ⟨s, rfl, ?_⟩
      simp only [scan_with_clamav, hd] at hinf herr
      exact hcl (pyStrip s) hinf herr
    · intro s2 hs2 h1 h2
      cases hs2
      simp only [scan_with_clamav, hd]
      exact herrb _ h1 h2
    · intro h; cases h
    · intro m h; cases h
  · refine ⟨?_, ?_, ?_, ?_⟩
    · rintro ⟨hinf, herr⟩
      simp [scan_with_clamav, hd] at herr
    · intro s2 hs2; cases hs2
    · intro _; simp [scan_with_clamav, hd]
    · intro m h; cases h
  · refine ⟨?_, ?_, ?_, ?_⟩
    · rintro ⟨hinf, herr⟩
      simp [scan_with_clamav, hd] at herr
    · intro s2 hs2; cases hs2
    · intro h; cases h
    · intro m2 h; simp [scan_with_clamav, hd]

/-- Claim C1 witness: the ambiguous reply `"stream: gibberish"` (neither
ending with `OK` nor containing `FOUND`) classifies as error, not
infected — hence not clean. -/
theorem clamav_never_clean_on_ambiguity_witness :
    (scan_with_clamav ⟨DaemonReply.reply "stream: gibberish", some "ClamAV 1.0"⟩).1.error = true ∧
    (scan_with_clamav ⟨DaemonReply.reply "stream: gibberish", some "ClamAV 1.0"⟩).1.infected
      = false :=
  (clamav_never_clean_on_ambiguity
      ⟨DaemonReply.reply "stream: gibberish", some "ClamAV 1.0"⟩).2.1
    "stream: gibberish" rfl (by decide) (by decide)

/-- Claim C7: updating a scan job or an upload session whose record is
absent (or TTL-expired, hence absent) returns `false` and leaves the
store untouched — the record is not resurrected. -/
theorem update_absent_reports_failure (r : ScanRedis) (st : SessionStore) (now : Nat)
    (scan_id session_id : String) (status result : Option String)
    (threats : Option (List ThreatDetailM)) (duration_ms : Option Nat)
    (error_message : Option String) (uploaded_size : Option Nat)
    (us_status us_error : Option String)
    (h1 : lookupKey r.store (scanJobKey scan_id) = none)
    (h2 : lookupKey st (sessionKey session_id) = none) :
    update_scan_job r now scan_id status result threats duration_ms error_message
      = (false, r) ∧
    update_upload_session st now session_id uploaded_size us_status us_error = (false, st) := by
  constructor
  · simp [update_scan_job, h1]
  · simp [update_upload_session, h2]

/-- Claim C7 witness: updating the absent scan job `"gone"` and the absent
upload session `"lost"` in empty stores reports failure and writes
nothing. -/
theorem update_absent_reports_failure_witness :
    update_scan_job ⟨[], []⟩ 5 "gone" (some "completed") none none none none
      = (false, ⟨[], []⟩) ∧
    update_upload_session ([] : SessionStore) 5 "lost" (some 10) (some "done") none
      = (false, ([] : SessionStore)) :=
  update_absent_reports_failure ⟨[], []⟩ [] 5 "gone" "lost" (some "completed") none none none
    none (some 10) (some "done") none rfl rfl

/-- Scan job record sitting in the terminal status `"completed"`, used to
exercise `update_scan_job`. -/
def c4Job : ScanJobData :=
  { scan_id := "scan-1", document_id := "doc-1", user_id := "u", tenant_id := "t",
    status := "completed", result := some "clean", threats := none, duration_ms := some 5,
    error_message := none, created_at := 0, updated_at := 0 }

/-- Redis state holding only the completed job `c4Job`. -/
def c4Redis : ScanRedis := { store := [("scan_job:scan-1", ⟨1800, c4Job⟩)], queue := [] }

/-- Claim C4 counterexample: a scan job whose status is the terminal
`"completed"` is regressed to `"pending"` by a subsequent
`update_scan_job` call, which reports success — the lifecycle is not
enforced to be forward-only. -/
theorem update_scan_job_regress_counterexample :
    (get_scan_job c4Redis "scan-1").map ScanJobData.status = some "completed" ∧
    (update_scan_job c4Redis 1 "scan-1" (some "pending") none none none none).1 = true ∧
    ((get_scan_job (update_scan_job c4Redis 1 "scan-1" (some "pending") none none none none).2
        "scan-1").map ScanJobData.status) = some "pending" := by
  decide

/-- Claim C4 (amended): `update_scan_job` enforces no terminal state — on
any existing (unexpired) record it returns `true` and overwrites the
stored status with exactly the requested value, regardless of whether the
current status is `completed` or `failed`; forward-only progression of
the scan lifecycle is upheld only by the discipline of its callers. -/
theorem update_scan_job_overwrites_status (r : ScanRedis) (now : Nat) (scan_id : String)
    (entry : ScanJobEntry) (h : lookupKey r.store (scanJobKey scan_id) = some entry)
    (new_status : String) (result : Option String) (threats : Option (List ThreatDetailM))
    (duration_ms : Option Nat) (error_message : Option String) :
    (update_scan_job r now scan_id (some new_status) result threats duration_ms
        error_message).1 = true ∧
    (get_scan_job (update_scan_job r now scan_id (some new_status) result threats duration_ms
        error_message).2 scan_id).map ScanJobData.status = some new_status := by
  cases result <;> cases threats <;> cases duration_ms <;> cases error_message <;>
    simp [update_scan_job, h, get_scan_job, lookupKey_setKey]

/-- Claim C4 witness: updating the completed job `c4Job` to `"scanning"`
succeeds and stores status `"scanning"`. -/
theorem update_scan_job_overwrites_status_witness :
    (update_scan_job c4Redis 2 "scan-1" (some "scanning") none none none none).1 = true ∧
    (get_scan_job (update_scan_job c4Redis 2 "scan-1" (some "scanning") none none none
        none).2 "scan-1").map ScanJobData.status = some "scanning" :=
  update_scan_job_overwrites_status c4Redis 2 "scan-1" ⟨1800, c4Job⟩ (by decide) "scanning"
    none none none none

/-- Claim C2: with a successful storage put, `upload_document` creates the
Document record (version 1, status active), its primary StorageLocation,
the DocumentVersion snapshot and the success AuditLog entry in one
transaction — all four on commit; if the metadata transaction fails after
the successful put, the call errors and none of the document,
storage-location or version rows are observable afterwards (for a fresh
document id, no Document row with that id exists). -/
theorem upload_document_atomicity (cfg : StorageConfig) (file_data : List Nat)
    (document_create : DocumentCreate) (user_id tenant_id : String)
    (session_id : Option String) (ids : UploadIds) (now : Nat) (st : SysState)
    (hfresh : ∀ dr ∈ st.db.documents, dr.id ≠ ids.document_id) :
    (∃ docRow locRow verRow auditRow,
      (upload_document cfg true true file_data document_create user_id tenant_id session_id
          ids now st).2.db.documents = st.db.documents ++ [docRow] ∧
      (upload_document cfg true true file_data document_create user_id tenant_id session_id
          ids now st).2.db.storage_locations = st.db.storage_locations ++ [locRow] ∧
      (upload_document cfg true true file_data document_create user_id tenant_id session_id
          ids now st).2.db.versions = st.db.versions ++ [verRow] ∧
      (upload_document cfg true true file_data document_create user_id tenant_id session_id
          ids now st).2.db.audit_logs = st.db.audit_logs ++ [auditRow] ∧
      docRow.id = ids.document_id ∧ docRow.version = 1 ∧
      docRow.status = DocumentStatus.active ∧
      locRow.document_id = ids.document_id ∧ locRow.is_primary = true ∧
      verRow.document_id = ids.document_id ∧ verRow.version = 1 ∧
      auditRow.action = "upload" ∧ auditRow.status = "success" ∧
      ∃ resp, (upload_document cfg true true file_data document_create user_id tenant_id
          session_id ids now st).1 = Except.ok resp) ∧
    ((upload_document cfg true false file_data document_create user_id tenant_id session_id
        ids now st).1 = Except.error (PyErr.generic "metadata transaction failed") ∧
      (upload_document cfg true false file_data document_create user_id tenant_id session_id
          ids now st).2.db.documents = st.db.documents ∧
      (upload_document cfg true false file_data document_create user_id tenant_id session_id
          ids now st).2.db.storage_locations = st.db.storage_locations ∧
      (upload_document cfg true false file_data document_create user_id tenant_id session_id
          ids now st).2.db.versions = st.db.versions ∧
      ∀ dr ∈ (upload_document cfg true false file_data document_create user_id tenant_id
          session_id ids now st).2.db.documents, dr.id ≠ ids.document_id) := by
  constructor
  · exact ⟨_, _, _, _, rfl, rfl, rfl, rfl, rfl, rfl, rfl, rfl, rfl, rfl, rfl, rfl, rfl,
      _, rfl⟩
  · exact ⟨rfl, rfl, rfl, rfl, hfresh⟩

/-- Claim C2 witness: at a concrete fresh state (empty database), the
success branch appends the four rows and the forced transaction failure
leaves the document, storage-location and version tables empty. -/
theorem upload_document_atomicity_witness :
    (∃ docRow locRow verRow auditRow,
      (upload_document ⟨StorageBackendKind.s3, "b", "r", none⟩ true true [1, 2, 3]
          ⟨"a.pdf", "application/pdf", none, none, [], []⟩ "u1" "t1" none
          ⟨"d1", "l1", "v1", "a1", "fa1"⟩ 7
          ⟨⟨[], [], [], [], []⟩, [], []⟩).2.db.documents = [] ++ [docRow] ∧
      (upload_document ⟨StorageBackendKind.s3, "b", "r", none⟩ true true [1, 2, 3]
          ⟨"a.pdf", "application/pdf", none, none, [], []⟩ "u1" "t1" none
          ⟨"d1", "l1", "v1", "a1", "fa1"⟩ 7
          ⟨⟨[], [], [], [], []⟩, [], []⟩).2.db.storage_locations = [] ++ [locRow] ∧
      (upload_document ⟨StorageBackendKind.s3, "b", "r", none⟩ true true [1, 2, 3]
          ⟨"a.pdf", "application/pdf", none, none, [], []⟩ "u1" "t1" none
          ⟨"d1", "l1", "v1", "a1", "fa1"⟩ 7
          ⟨⟨[], [], [], [], []⟩, [], []⟩).2.db.versions = [] ++ [verRow] ∧
      (upload_document ⟨StorageBackendKind.s3, "b", "r", none⟩ true true [1, 2, 3]
          ⟨"a.pdf", "application/pdf", none, none, [], []⟩ "u1" "t1" none
          ⟨"d1", "l1", "v1", "a1", "fa1"⟩ 7
          ⟨⟨[], [], [], [], []⟩, [], []⟩).2.db.audit_logs = [] ++ [auditRow] ∧
      docRow.id = "d1" ∧ docRow.version = 1 ∧ docRow.status = DocumentStatus.active ∧
      locRow.document_id = "d1" ∧ locRow.is_primary = true ∧
      verRow.document_id = "d1" ∧ verRow.version = 1 ∧
      auditRow.action = "upload" ∧ auditRow.status = "success" ∧
      ∃ resp, (upload_document ⟨StorageBackendKind.s3, "b", "r", none⟩ true true [1, 2, 3]
          ⟨"a.pdf", "application/pdf", none, none, [], []⟩ "u1" "t1" none
          ⟨"d1", "l1", "v1", "a1", "fa1"⟩ 7
          ⟨⟨[], [], [], [], []⟩, [], []⟩).1 = Except.ok resp) ∧
    ((upload_document ⟨StorageBackendKind.s3, "b", "r", none⟩ true false [1, 2, 3]
        ⟨"a.pdf", "application/pdf", none, none, [], []⟩ "u1" "t1" none
        ⟨"d1", "l1", "v1", "a1", "fa1"⟩ 7
        ⟨⟨[], [], [], [], []⟩, [], []⟩).1
          = Except.error (PyErr.generic "metadata transaction failed") ∧
      (upload_document ⟨StorageBackendKind.s3, "b", "r", none⟩ true false [1, 2, 3]
          ⟨"a.pdf", "application/pdf", none, none, [], []⟩ "u1" "t1" none
          ⟨"d1", "l1", "v1", "a1", "fa1"⟩ 7
          ⟨⟨[], [], [], [], []⟩, [], []⟩).2.db.documents = [] ∧
      (upload_document ⟨StorageBackendKind.s3, "b", "r", none⟩ true false [1, 2, 3]
          ⟨"a.pdf", "application/pdf", none, none, [], []⟩ "u1" "t1" none
          ⟨"d1", "l1", "v1", "a1", "fa1"⟩ 7
          ⟨⟨[], [], [], [], []⟩, [], []⟩).2.db.storage_locations = [] ∧
      (upload_document ⟨StorageBackendKind.s3, "b", "r", none⟩ true false [1, 2, 3]
          ⟨"a.pdf", "application/pdf", none, none, [], []⟩ "u1" "t1" none
          ⟨"d1", "l1", "v1", "a1", "fa1"⟩ 7
          ⟨⟨[], [], [], [], []⟩, [], []⟩).2.db.versions = [] ∧
      ∀ dr ∈ (upload_document ⟨StorageBackendKind.s3, "b", "r", none⟩ true false [1, 2, 3]
          ⟨"a.pdf", "application/pdf", none, none, [], []⟩ "u1" "t1" none
          ⟨"d1", "l1", "v1", "a1", "fa1"⟩ 7
          ⟨⟨[], [], [], [], []⟩, [], []⟩).2.db.documents, dr.id ≠ "d1") :=
  upload_document_atomicity ⟨StorageBackendKind.s3, "b", "r", none⟩ [1, 2, 3]
    ⟨"a.pdf", "application/pdf", none, none, [], []⟩ "u1" "t1" none
    ⟨"d1", "l1", "v1", "a1", "fa1"⟩ 7 ⟨⟨[], [], [], [], []⟩, [], []⟩ (by decide)

/-- Claim C6: the checksum returned by `upload_document` is the SHA-256 hex
digest of exactly the uploaded bytes; uploading the same payload twice
(with distinct fresh document ids) yields equal checksums but distinct
document ids, and each response has status completed and size equal to
the payload length. -/
theorem upload_checksum_roundtrip (cfg : StorageConfig) (file_data : List Nat)
    (document_create : DocumentCreate) (user_id tenant_id : String)
    (ids1 ids2 : UploadIds) (now1 now2 : Nat) (st : SysState)
    (hids : ids1.document_id ≠ ids2.document_id) :
    ∃ u1 u2,
      (upload_document cfg true true file_data document_create user_id tenant_id none ids1
          now1 st).1 = Except.ok u1 ∧
      (upload_document cfg true true file_data document_create user_id tenant_id none ids2
          now2 (upload_document cfg true true file_data document_create user_id tenant_id
            none ids1 now1 st).2).1 = Except.ok u2 ∧
      u1.checksum = sha256hex file_data ∧ u2.checksum = sha256hex file_data ∧
      u1.checksum = u2.checksum ∧
      u1.document_id = ids1.document_id ∧ u2.document_id = ids2.document_id ∧
      u1.document_id ≠ u2.document_id ∧
      u1.status = UploadStatus.completed ∧ u2.status = UploadStatus.completed ∧
      u1.size_bytes = file_data.length ∧ u2.size_bytes = file_data.length :=
  ⟨_, _, rfl, rfl, rfl, rfl, rfl, rfl, rfl, hids, rfl, rfl, rfl, rfl⟩

/-- Claim C6 witness: uploading the 19-byte payload of example scenario 1
twice under the distinct fresh ids `"doc-a"` and `"doc-b"` yields equal
checksums (the SHA-256 of those bytes), distinct document ids, completed
status, and size 19. -/
theorem upload_checksum_roundtrip_witness :
    ∃ u1 u2,
      (upload_document ⟨StorageBackendKind.s3, "b", "r", none⟩ true true
          (strToBytes "hello virus scanner") ⟨"a.pdf", "application/pdf", none, none, [], []⟩
          "u1" "t1" none ⟨"doc-a", "l1", "v1", "a1", "fa1"⟩ 7
          ⟨⟨[], [], [], [], []⟩, [], []⟩).1 = Except.ok u1 ∧
      (upload_document ⟨StorageBackendKind.s3, "b", "r", none⟩ true true
          (strToBytes "hello virus scanner") ⟨"a.pdf", "application/pdf", none, none, [], []⟩
          "u1" "t1" none ⟨"doc-b", "l2", "v2", "a2", "fa2"⟩ 9
          (upload_document ⟨StorageBackendKind.s3, "b", "r", none⟩ true true
            (strToBytes "hello virus scanner") ⟨"a.pdf", "application/pdf", none, none, [], []⟩
            "u1" "t1" none ⟨"doc-a", "l1", "v1", "a1", "fa1"⟩ 7
            ⟨⟨[], [], [], [], []⟩, [], []⟩).2).1 = Except.ok u2 ∧
      u1.checksum = sha256hex (strToBytes "hello virus scanner") ∧
      u2.checksum = sha256hex (strToBytes "hello virus scanner") ∧
      u1.checksum = u2.checksum ∧
      u1.document_id = "doc-a" ∧ u2.document_id = "doc-b" ∧
      u1.document_id ≠ u2.document_id ∧
      u1.status = UploadStatus.completed ∧ u2.status = UploadStatus.completed ∧
      u1.size_bytes = (strToBytes "hello virus scanner").length ∧
      u2.size_bytes = (strToBytes "hello virus scanner").length :=
  upload_checksum_roundtrip ⟨StorageBackendKind.s3, "b", "r", none⟩
    (strToBytes "hello virus scanner") ⟨"a.pdf", "application/pdf", none, none, [], []⟩
    "u1" "t1" ⟨"doc-a", "l1", "v1", "a1", "fa1"⟩ ⟨"doc-b", "l2", "v2", "a2", "fa2"⟩ 7 9
    ⟨⟨[], [], [], [], []⟩, [], []⟩ (by decide)

/-- Claim C8: `delete_document` on a document that is already deleted, or
that does not belong to the caller's tenant, raises the NotFound
`ValueError` rather than reporting success, and leaves the documents
table (and every other row table) unchanged. -/
theorem delete_deleted_not_found (db : DB) (document_id user_id tenant_id : String)
    (user_scopes : Option (List String)) (audit_id : String) (now : Nat)
    (h : ∀ dr ∈ db.documents, dr.id = document_id →
      dr.status = DocumentStatus.deleted ∨ dr.tenant_id ≠ tenant_id) :
    (delete_document db document_id user_id tenant_id user_scopes audit_id now).1
      = Except.error (PyErr.valueError ("Document not found: " ++ document_id)) ∧
    (delete_document db document_id user_id tenant_id user_scopes audit_id now).2.documents
      = db.documents ∧
    (delete_document db document_id user_id tenant_id user_scopes audit_id
        now).2.storage_locations = db.storage_locations := by
  have hfil : db.documents.filter (docQuery document_id tenant_id) = [] := by
    rw [List.filter_eq_nil_iff]
    intro dr hdr hq
    simp only [docQuery, Bool.and_eq_true, beq_iff_eq, Bool.not_eq_true',
      beq_eq_false_iff_ne] at hq
    rcases h dr hdr hq.1.1 with hdel | hten
    · exact hq.2 hdel
    · exact hten hq.1.2
  simp [delete_document, scalarOneOrNone, hfil, failAudit]

/-- Claim C8 witness: deleting the already-deleted document `"doc-8"` in
its own tenant reports NotFound and leaves the table unchanged. -/
theorem delete_deleted_not_found_witness :
    (delete_document
        ⟨[⟨"doc-8", "f", "ct", 1, "c", "u8", "t8", none, none, [], [],
           DocumentStatus.deleted, 1, 0, 0⟩], [], [], [], []⟩
        "doc-8" "u8" "t8" none "a1" 3).1
      = Except.error (PyErr.valueError ("Document not found: " ++ "doc-8")) ∧
    (delete_document
        ⟨[⟨"doc-8", "f", "ct", 1, "c", "u8", "t8", none, none, [], [],
           DocumentStatus.deleted, 1, 0, 0⟩], [], [], [], []⟩
        "doc-8" "u8" "t8" none "a1" 3).2.documents
      = [⟨"doc-8", "f", "ct", 1, "c", "u8", "t8", none, none, [], [],
           DocumentStatus.deleted, 1, 0, 0⟩] ∧
    (delete_document
        ⟨[⟨"doc-8", "f", "ct", 1, "c", "u8", "t8", none, none, [], [],
           DocumentStatus.deleted, 1, 0, 0⟩], [], [], [], []⟩
        "doc-8" "u8" "t8" none "a1" 3).2.storage_locations = [] :=
  delete_deleted_not_found
    ⟨[⟨"doc-8", "f", "ct", 1, "c", "u8", "t8", none, none, [], [],
       DocumentStatus.deleted, 1, 0, 0⟩], [], [], [], []⟩
    "doc-8" "u8" "t8" none "a1" 3 (by decide)

theorem applyDocumentUpdate_frame (du : DocumentUpdate) (now : Nat) (dr : DocumentRec) :
    (applyDocumentUpdate du now dr).id = dr.id ∧
    (applyDocumentUpdate du now dr).checksum = dr.checksum ∧
    (applyDocumentUpdate du now dr).version = dr.version ∧
    (applyDocumentUpdate du now dr).size_bytes = dr.size_bytes ∧
    (applyDocumentUpdate du now dr).filename = dr.filename ∧
    (applyDocumentUpdate du now dr).content_type = dr.content_type ∧
    (applyDocumentUpdate du now dr).owner_id = dr.owner_id ∧
    (applyDocumentUpdate du now dr).tenant_id = dr.tenant_id ∧
    (applyDocumentUpdate du now dr).created_at = dr.created_at ∧
    (applyDocumentUpdate du now dr).status = dr.status ∧
    (applyDocumentUpdate du now dr).updated_at = now := by
  obtain ⟨t, ds, tg, attrs, stt⟩ := du
  cases t <;> cases ds <;> cases tg <;> cases attrs <;> simp [applyDocumentUpdate]

theorem get_document_rows (db : DB) (document_id user_id tenant_id : String)
    (user_scopes : Option (List String)) (audit_id : String) (now : Nat) :
    (get_document db document_id user_id tenant_id user_scopes audit_id now).2.documents
      = db.documents ∧
    (get_document db document_id user_id tenant_id user_scopes audit_id
        now).2.storage_locations = db.storage_locations ∧
    (get_document db document_id user_id tenant_id user_scopes audit_id now).2.versions
      = db.versions ∧
    (get_document db document_id user_id tenant_id user_scopes audit_id now).2.scan_results
      = db.scan_results := by
  unfold get_document
  cases hs : scalarOneOrNone (docQuery document_id tenant_id) db.documents with
  | error e => simp [failAudit]
  | ok o =>
    cases o with
    | none => simp [failAudit]
    | some document =>
      dsimp only
      split
      · simp [failAudit]
      · split
        · simp [failAudit]
        · simp

/-- Claim C9: an `update_document` call (here, one that finds its document
and passes the ownership check) rewrites the stored rows only through
`applyDocumentUpdate`, so every resulting row keeps its id, checksum,
version, size, filename, content type, owner, tenant, creation time and
status from some pre-existing row, and the matched document's
`updated_at` is bumped to the call's clock. -/
theorem update_document_frame (db : DB) (document_id : String) (du : DocumentUpdate)
    (user_id tenant_id audit_id get_audit_id : String) (now : Nat) (document : DocumentRec)
    (hq : db.documents.filter (docQuery document_id tenant_id) = [document])
    (howner : document.owner_id = user_id) :
    (update_document db document_id du user_id tenant_id audit_id get_audit_id
        now).2.documents
      = updateFirst (docQuery document_id tenant_id) (applyDocumentUpdate du now)
          db.documents ∧
    (∀ d1 ∈ (update_document db document_id du user_id tenant_id audit_id get_audit_id
        now).2.documents,
      ∃ d0 ∈ db.documents,
        d1.id = d0.id ∧ d1.checksum = d0.checksum ∧ d1.version = d0.version ∧
        d1.size_bytes = d0.size_bytes ∧ d1.filename = d0.filename ∧
        d1.content_type = d0.content_type ∧ d1.owner_id = d0.owner_id ∧
        d1.tenant_id = d0.tenant_id ∧ d1.created_at = d0.created_at ∧
        d1.status = d0.status) ∧
    (∃ d1 ∈ (update_document db document_id du user_id tenant_id audit_id get_audit_id
        now).2.documents, d1.id = document.id ∧ d1.updated_at = now) := by
  have hs : scalarOneOrNone (docQuery document_id tenant_id) db.documents
      = Except.ok (some document) := by simp [scalarOneOrNone, hq]
  have hbne : (document.owner_id != user_id) = false := by simp [bne, howner]
  have hdocs : (update_document db document_id du user_id tenant_id audit_id get_audit_id
      now).2.documents
      = updateFirst (docQuery document_id tenant_id) (applyDocumentUpdate du now)
          db.documents := by
    simp only [update_document, hs, hbne, Bool.false_eq_true, if_false]
    exact (get_document_rows _ _ _ _ _ _ _).1
  refine ⟨hdocs, ?_, ?_⟩
  · intro d1 hd1
    rw [hdocs] at hd1
    rcases mem_updateFirst _ _ _ d1 hd1 with hmem | ⟨y, hy, rfl⟩
    · exact ⟨d1, hmem, rfl, rfl, rfl, rfl, rfl, rfl, rfl, rfl, rfl, rfl⟩
    · obtain ⟨h1, h2, h3, h4, h5, h6, h7, h8, h9, h10, _⟩ :=
        applyDocumentUpdate_frame du now y
      exact ⟨y, hy, h1, h2, h3, h4, h5, h6, h7, h8, h9, h10⟩
  · refine ⟨applyDocumentUpdate du now document, ?_, ?_, ?_⟩
    · rw [hdocs]; exact updateFirst_of_filter_single _ _ _ _ hq
    · exact (applyDocumentUpdate_frame du now document).1
    · exact (applyDocumentUpdate_frame du now document).2.2.2.2.2.2.2.2.2.2

/-- Claim C9 witness: retitling document `"doc-9"` keeps every frame field
of the stored row and bumps its `updated_at` to the call's clock. -/
theorem update_document_frame_witness :
    (update_document
        ⟨[⟨"doc-9", "f", "ct", 1, "c", "u9", "t9", none, none, [], [],
           DocumentStatus.active, 1, 0, 0⟩], [], [], [], []⟩
        "doc-9" ⟨some "new title", none, none, none, none⟩ "u9" "t9" "a1" "ga1"
        5).2.documents
      = updateFirst (docQuery "doc-9" "t9")
          (applyDocumentUpdate ⟨some "new title", none, none, none, none⟩ 5)
          [⟨"doc-9", "f", "ct", 1, "c", "u9", "t9", none, none, [], [],
            DocumentStatus.active, 1, 0, 0⟩] ∧
    (∀ d1 ∈ (update_document
        ⟨[⟨"doc-9", "f", "ct", 1, "c", "u9", "t9", none, none, [], [],
           DocumentStatus.active, 1, 0, 0⟩], [], [], [], []⟩
        "doc-9" ⟨some "new title", none, none, none, none⟩ "u9" "t9" "a1" "ga1"
        5).2.documents,
      ∃ d0 ∈ [(⟨"doc-9", "f", "ct", 1, "c", "u9", "t9", none, none, [], [],
          DocumentStatus.active, 1, 0, 0⟩ : DocumentRec)],
        d1.id = d0.id ∧ d1.checksum = d0.checksum ∧ d1.version = d0.version ∧
        d1.size_bytes = d0.size_bytes ∧ d1.filename = d0.filename ∧
        d1.content_type = d0.content_type ∧ d1.owner_id = d0.owner_id ∧
        d1.tenant_id = d0.tenant_id ∧ d1.created_at = d0.created_at ∧
        d1.status = d0.status) ∧
    (∃ d1 ∈ (update_document
        ⟨[⟨"doc-9", "f", "ct", 1, "c", "u9", "t9", none, none, [], [],
           DocumentStatus.active, 1, 0, 0⟩], [], [], [], []⟩
        "doc-9" ⟨some "new title", none, none, none, none⟩ "u9" "t9" "a1" "ga1"
        5).2.documents, d1.id = "doc-9" ∧ d1.updated_at = 5) :=
  update_document_frame
    ⟨[⟨"doc-9", "f", "ct", 1, "c", "u9", "t9", none, none, [], [],
       DocumentStatus.active, 1, 0, 0⟩], [], [], [], []⟩
    "doc-9" ⟨some "new title", none, none, none, none⟩ "u9" "t9" "a1" "ga1" 5
    ⟨"doc-9", "f", "ct", 1, "c", "u9", "t9", none, none, [], [],
      DocumentStatus.active, 1, 0, 0⟩ (by decide) (by decide)

/-- Document of the C3 scenario: active, owned by `"user-3"` in tenant
`"t3"`, with no storage locations at all. -/
def c3doc : DocumentRec :=
  { id := "doc-3", filename := "f.pdf", content_type := "application/pdf", size_bytes := 4,
    checksum := "c", owner_id := "user-3", tenant_id := "t3", title := none,
    description := none, tags := [], attributes := [], status := DocumentStatus.active,
    version := 1, created_at := 0, updated_at := 0 }

/-- Database holding only `c3doc`, with empty storage-location and
scan-result tables. -/
def c3db : DB :=
  { documents := [c3doc], storage_locations := [], versions := [], scan_results := [],
    audit_logs := [] }

/-- Claim C3 counterexample: scanning `"doc-3"`, which has no primary
storage location, opens no connection to the daemon — but contrary to the
claim no failed ScanResult is recorded anywhere: the request errors with
404 NotFound, the `scan_results` table stays empty, and no scan-job
record or queue entry is created. -/
theorem scan_no_primary_location_counterexample :
    (scan_document true ⟨DaemonReply.reply "stream: OK", some "v"⟩ "doc-3" "user-3" "t3" []
        "a1" "s1" 0 1 c3db [] ⟨[], []⟩).1
      = Except.error (HttpErr.notFound "No storage location found for document") ∧
    (scan_document true ⟨DaemonReply.reply "stream: OK", some "v"⟩ "doc-3" "user-3" "t3" []
        "a1" "s1" 0 1 c3db [] ⟨[], []⟩).2.1.scan_results = [] ∧
    (scan_document true ⟨DaemonReply.reply "stream: OK", some "v"⟩ "doc-3" "user-3" "t3" []
        "a1" "s1" 0 1 c3db [] ⟨[], []⟩).2.2.1 = (⟨[], []⟩ : ScanRedis) ∧
    (scan_document true ⟨DaemonReply.reply "stream: OK", some "v"⟩ "doc-3" "user-3" "t3" []
        "a1" "s1" 0 1 c3db [] ⟨[], []⟩).2.2.2 = 0 := by
  decide

/-- Claim C3 (amended): a scan request for a document that exists, passes
the ownership check, but has no primary storage location terminates
immediately: `get_document` raises the descriptive
`"No storage location found for document"` error, the route surfaces it
as 404 NotFound, no connection to the scanner daemon is attempted, the
Redis scan state is untouched (no job, no queue entry), and no
ScanResult is recorded — the only write is the failure AuditLog of the
`get` action. -/
theorem scan_no_primary_location_not_found (enabled : Bool) (d : Daemon)
    (document_id user_id tenant_id : String) (scopes : List String)
    (get_audit_id scan_id : String) (t1 t2 : Nat) (db : DB) (storage : Storage)
    (r : ScanRedis) (document : DocumentRec)
    (hq : db.documents.filter (docQuery document_id tenant_id) = [document])
    (howner : document.owner_id = user_id)
    (hloc : ∀ l ∈ db.storage_locations, l.document_id = document.id → l.is_primary = false) :
    scan_document enabled d document_id user_id tenant_id scopes get_audit_id scan_id t1 t2
        db storage r =
      (Except.error (HttpErr.notFound "No storage location found for document"),
       failAudit get_audit_id (some document_id) "get" user_id tenant_id
         (PyErr.valueError "No storage location found for document") t1 db, r, 0) := by
  have hs : scalarOneOrNone (docQuery document_id tenant_id) db.documents
      = Except.ok (some document) := by simp [scalarOneOrNone, hq]
  have hbne : (document.owner_id != user_id) = false := by simp [bne, howner]
  have hfind : (db.storage_locations.filter (fun l => l.document_id == document.id)).find?
      (fun l => l.is_primary) = none := by
    rw [List.find?_eq_none]
    intro l hl
    have hmem := List.mem_filter.mp hl
    have hdoc : l.document_id = document.id := by simpa using hmem.2
    simp [hloc l hmem.1 hdoc]
  have hget : get_document db document_id user_id tenant_id (some scopes) get_audit_id t1 =
      (Except.error (PyErr.valueError "No storage location found for document"),
       failAudit get_audit_id (some document_id) "get" user_id tenant_id
         (PyErr.valueError "No storage location found for document") t1 db) := by
    simp [get_document, hs, hbne, hfind]
  simp [scan_document, hget]

/-- Claim C3 witness: the amended behaviour at the concrete no-location
scenario — 404 NotFound with the descriptive message, only the failure
AuditLog written, Redis untouched, zero daemon connections. -/
theorem scan_no_primary_location_not_found_witness :
    scan_document true ⟨DaemonReply.reply "stream: OK", some "v"⟩ "doc-3" "user-3" "t3" []
        "a1" "s1" 0 1 c3db [] ⟨[], []⟩ =
      (Except.error (HttpErr.notFound "No storage location found for document"),
       failAudit "a1" (some "doc-3") "get" "user-3" "t3"
         (PyErr.valueError "No storage location found for document") 0 c3db,
       (⟨[], []⟩ : ScanRedis), 0) :=
  scan_no_primary_location_not_found true ⟨DaemonReply.reply "stream: OK", some "v"⟩
    "doc-3" "user-3" "t3" [] "a1" "s1" 0 1 c3db [] ⟨[], []⟩ c3doc (by decide) (by decide)
    (by decide)
